import Mathlib

/-!
Verification development for the netopeer NETCONF agent
(`src/server/src/agent.c`): a shallow embedding of the dispatch engine
(`process_message`), the signal handler (`signal_handler`), the detached
notification thread (`notification_thread`), and the poll-driven session
loop of `main`, together with theorems about the claims of the
specification.

External collaborators (the libnetconf protocol library and the backend
communication channel from `comm.h`) are modelled as oracles: records of
boolean outcomes and reply-valued functions supplied as parameters, since
their code is outside the file under study and the agent treats them as
request/reply primitives.
-/

namespace Agent

/-- Exit status `EXIT_SUCCESS`. -/
def EXIT_SUCCESS : Nat := 0

/-- Exit status `EXIT_FAILURE`. -/
def EXIT_FAILURE : Nat := 1

/-- Operation kind of an RPC, the value of `nc_rpc_get_op` as consumed by
the `switch` in `process_message` (agent.c:152): the three specially
handled operations plus the `default` bucket. -/
inductive NcOp
  | closesession
  | killsession
  | createsubscription
  | other
deriving DecidableEq, Repr

/-- A child XML element of the operation element, as accessed via
`op->children` in the kill-session branch: its name (`children->name`,
possibly NULL) and its text content (`xmlNodeGetContent`). -/
structure XmlChild where
  name : Option String
  content : String
deriving DecidableEq, Repr

/-- The operation element returned by `ncxml_rpc_get_op_content`: its name
(`op->name`, possibly NULL) and its first child (`op->children`, possibly
NULL). -/
structure XmlOp where
  name : Option String
  children : Option XmlChild
deriving DecidableEq, Repr

/-- A parsed RPC: the operation kind plus the operation element of its
payload (`ncxml_rpc_get_op_content` may return NULL, hence `Option`). -/
structure Rpc where
  op : NcOp
  opContent : Option XmlOp
deriving DecidableEq, Repr

/-- Error tags used by `process_message`: `NC_ERR_OP_FAILED`,
`NC_ERR_MISSING_ELEM`, `NC_ERR_OP_NOT_SUPPORTED`. -/
inductive NcErrTag
  | op_failed
  | missing_elem
  | op_not_supported
deriving DecidableEq, Repr

/-- An error structure as built by `nc_err_new` and annotated by
`nc_err_set`: the tag plus the optional `NC_ERR_PARAM_INFO_BADELEM`,
`NC_ERR_PARAM_TYPE` and `NC_ERR_PARAM_MSG` parameters. -/
structure NcErr where
  tag : NcErrTag
  badelem : Option String := none
  typ : Option String := none
  msg : Option String := none
deriving DecidableEq, Repr

/-- A reply object: `nc_reply_ok`, `nc_reply_error e`, or an opaque
data-bearing reply produced by the backend channel (`Reply.data n` with an
abstract identity `n`). -/
inductive Reply
  | ok
  | error (e : NcErr)
  | data (n : Nat)
deriving DecidableEq, Repr

/-- `nc_reply_get_type r == NC_REPLY_OK`. -/
def Reply.isOk : Reply → Bool
  | Reply.ok => true
  | _ => false

/-- Observable resource events of one `process_message` call (and of the
notification thread it may spawn): sending a reply on the session,
freeing a reply, duplicating the inbound RPC (`nc_rpc_dup`), freeing that
duplicate (`nc_rpc_free` in `notification_thread`), spawning the detached
notification thread, and the notification dispatch send itself. -/
inductive Event
  | sendReply (r : Reply)
  | freeReply (r : Reply)
  | dupRpc
  | freeDupRpc
  | spawnThread
  | ntfDispatchSend
deriving DecidableEq, Repr

/-- Oracles for the external collaborators consulted by
`process_message`: the backend channel (`comm_close`, `comm_kill_session`,
`comm_operation`), the protocol library on this session
(`nc_cpblts_enabled` for the notification capability,
`nc_session_notif_allowed`, `ncntf_subscription_check`), and the two
fallible system calls (`malloc` of the thread config, `pthread_create`). -/
structure Env where
  commCloseOk : Bool
  killSessionReply : String → Reply
  operationReply : Rpc → Reply
  cpbltsEnabled : Bool
  notifAllowed : Bool
  subscriptionCheck : Rpc → Reply
  mallocOk : Bool
  pthreadCreateOk : Bool

/-- Result of one `process_message` call: the C return value, the value of
the global `done` flag afterwards, and the ordered trace of resource
events the call performed. -/
structure PMResult where
  status : Nat
  done : Bool
  events : List Event
deriving DecidableEq, Repr

/-- The `send_reply:` tail of `process_message` (agent.c:230-233):
`nc_session_send_reply(session, rpc, reply); nc_reply_free(reply)`. -/
def sendReplyTail (r : Reply) : List Event :=
  [Event.sendReply r, Event.freeReply r]

/-- The detached notification thread (agent.c:68-77): it dispatches the
notification stream, frees the duplicated subscribe RPC it owns, and
frees its config. -/
def notification_thread : List Event :=
  [Event.ntfDispatchSend, Event.freeDupRpc]

/-- Shallow embedding of `process_message` (agent.c:137-234), structured
exactly as the C switch. `done` is the value of the global flag on entry;
`rpc` is `none` for a NULL RPC pointer. Events spawned into the detached
thread are not part of the returned trace (the thread runs concurrently);
`Event.spawnThread` records the successful hand-off. -/
def process_message (env : Env) (done : Bool) (rpc : Option Rpc) : PMResult :=
  match rpc with
  | none =>
    { status := EXIT_FAILURE, done := done, events := [] }
  | some rpc =>
    match rpc.op with
    | NcOp.closesession =>
      let reply :=
        if env.commCloseOk then Reply.ok
        else Reply.error { tag := NcErrTag.op_failed }
      { status := EXIT_SUCCESS, done := true, events := sendReplyTail reply }
    | NcOp.killsession =>
      match rpc.opContent with
      | none =>
        { status := EXIT_SUCCESS, done := done,
          events := sendReplyTail (Reply.error { tag := NcErrTag.op_failed }) }
      | some op =>
        if op.name ≠ some "kill-session" then
          { status := EXIT_SUCCESS, done := done,
            events := sendReplyTail (Reply.error { tag := NcErrTag.op_failed }) }
        else
          match op.children with
          | none =>
            { status := EXIT_SUCCESS, done := done,
              events := sendReplyTail (Reply.error
                { tag := NcErrTag.missing_elem, badelem := some "session-id" }) }
          | some child =>
            if child.name ≠ some "session-id" then
              { status := EXIT_SUCCESS, done := done,
                events := sendReplyTail (Reply.error
                  { tag := NcErrTag.missing_elem, badelem := some "session-id" }) }
            else
              { status := EXIT_SUCCESS, done := done,
                events := sendReplyTail (env.killSessionReply child.content) }
    | NcOp.createsubscription =>
      if !env.cpbltsEnabled then
        { status := EXIT_SUCCESS, done := done,
          events := sendReplyTail (Reply.error { tag := NcErrTag.op_not_supported }) }
      else if !env.notifAllowed then
        { status := EXIT_SUCCESS, done := done,
          events := sendReplyTail (Reply.error
            { tag := NcErrTag.op_failed, typ := some "protocol",
              msg := some "Another notification subscription is currently active on this session." }) }
      else
        let reply := env.subscriptionCheck rpc
        if !reply.isOk then
          { status := EXIT_SUCCESS, done := done, events := sendReplyTail reply }
        else if !env.mallocOk then
          { status := EXIT_SUCCESS, done := done,
            events := sendReplyTail (Reply.error
              { tag := NcErrTag.op_failed, msg := some "Memory allocation failed." }) }
        else if !env.pthreadCreateOk then
          { status := EXIT_SUCCESS, done := done,
            events := Event.dupRpc :: Event.freeReply reply ::
              sendReplyTail (Reply.error
                { tag := NcErrTag.op_failed,
                  msg := some "Creating thread for sending Notifications failed." }) }
        else
          { status := EXIT_SUCCESS, done := done,
            events := Event.dupRpc :: Event.spawnThread :: sendReplyTail reply }
    | NcOp.other =>
      { status := EXIT_SUCCESS, done := done,
        events := sendReplyTail (env.operationReply rpc) }

/-- The replies sent on the session, in order, within an event trace. -/
def sentReplies (evs : List Event) : List Reply :=
  evs.filterMap (fun e =>
    match e with
    | Event.sendReply r => some r
    | _ => none)

/-- The duplicated RPC is released or handed to the spawned thread (which
releases it, see `notification_thread`): each `nc_rpc_dup` is matched by a
`nc_rpc_free` of the duplicate or by a successful thread spawn. -/
def dupReleased (evs : List Event) : Bool :=
  (evs.count Event.dupRpc) ≤
    (evs.count Event.freeDupRpc) + (evs.count Event.spawnThread)

/-- Signal number `SIGINT`. -/
def SIGINT : Nat := 2

/-- Signal number `SIGQUIT`. -/
def SIGQUIT : Nat := 3

/-- Signal number `SIGABRT`. -/
def SIGABRT : Nat := 6

/-- Signal number `SIGKILL`. -/
def SIGKILL : Nat := 9

/-- Signal number `SIGTERM`. -/
def SIGTERM : Nat := 15

/-- The fixed set of termination signals recognized by the `switch` in
`signal_handler` (agent.c:93-97). -/
def termination_signals : List Nat :=
  [SIGINT, SIGTERM, SIGQUIT, SIGABRT, SIGKILL]

/-- Outcome of a `signal_handler` invocation: either the handler returns,
with the new value of the `done` flag, or it terminates the process via
`exit(EXIT_FAILURE)`. -/
inductive HandlerOutcome
  | returns (done : Bool)
  | exitFailure
deriving DecidableEq, Repr

/-- Shallow embedding of `signal_handler` (agent.c:86-112): `done` is the
value of the global flag at delivery time, `sig` the delivered signal
number. -/
def signal_handler (done : Bool) (sig : Nat) : HandlerOutcome :=
  if sig ∈ termination_signals then
    if done = false then HandlerOutcome.returns true
    else HandlerOutcome.exitFailure
  else HandlerOutcome.exitFailure

/-- Result of `poll(&fds, 1, timeout)` (agent.c:394) as consumed by the
loop: a negative return with `errno` either `EINTR` or not, a zero return
(timeout), or a positive return with the `revents` flags `POLLHUP`,
`POLLERR`, `POLLIN`. -/
inductive PollResult
  | error (eintr : Bool)
  | timeout
  | ready (hup err dataIn : Bool)
deriving DecidableEq, Repr

/-- Result of `nc_session_recv_rpc` (agent.c:410): a parsed RPC
(`NC_MSG_RPC`), `NC_MSG_NONE`, `NC_MSG_UNKNOWN`, or any other message
type (the `default` case of the inner switch). -/
inductive RecvResult
  | msgRpc (rpc : Rpc)
  | msgNone
  | msgUnknown
  | msgOther
deriving DecidableEq, Repr

/-- `nc_session_get_status` as consumed at agent.c:418: either
`NC_SESSION_STATUS_WORKING` or anything else (degraded). -/
inductive SessionStatus
  | working
  | degraded
deriving DecidableEq, Repr

/-- The external inputs of one iteration of the `while (!done)` loop: the
poll outcome, the receive outcome (consulted only when data is ready),
and the session status after the receive. -/
structure LoopInput where
  poll : PollResult
  recv : RecvResult
  status : SessionStatus
deriving DecidableEq, Repr

/-- Outcome of one execution of the loop body: continue the `while` loop
(with the possibly updated `done` flag and the events performed), or jump
to the `cleanup:` label. -/
inductive StepOutcome
  | continueLoop (done : Bool) (events : List Event)
  | exitCleanup (done : Bool) (events : List Event)
deriving DecidableEq, Repr

/-- Shallow embedding of the body of the `while (!done)` loop of `main`
(agent.c:393-439). A poll error with `errno == EINTR` matches none of the
three branches, so the body falls through and the loop continues; `ret >
0` with none of `POLLHUP`, `POLLERR`, `POLLIN` set likewise does
nothing. -/
def loop_body (env : Env) (done : Bool) (inp : LoopInput) : StepOutcome :=
  match inp.poll with
  | PollResult.error eintr =>
    if !eintr then StepOutcome.exitCleanup done []
    else StepOutcome.continueLoop done []
  | PollResult.timeout => StepOutcome.continueLoop done []
  | PollResult.ready hup err dataIn =>
    if hup then StepOutcome.exitCleanup done []
    else if err then StepOutcome.exitCleanup done []
    else if dataIn then
      match inp.recv with
      | RecvResult.msgRpc rpc =>
        let r := process_message env done (some rpc)
        StepOutcome.continueLoop r.done r.events
      | RecvResult.msgNone => StepOutcome.continueLoop done []
      | RecvResult.msgUnknown =>
        if inp.status = SessionStatus.working then StepOutcome.continueLoop done []
        else StepOutcome.exitCleanup done []
      | RecvResult.msgOther => StepOutcome.continueLoop done []
    else StepOutcome.continueLoop done []

/-- How the `while (!done)` loop was left: the `!done` condition failed at
the top (cooperative shutdown), a `goto cleanup` fired inside the body,
or the supplied input trace ran out with the loop still running. -/
inductive LoopExit
  | shutdownFlag
  | cleanupJump
  | inputsExhausted
deriving DecidableEq, Repr

/-- Run the `while (!done)` loop over a finite trace of per-iteration
external inputs, threading the `done` flag and collecting the events of
every executed iteration. -/
def run_loop (env : Env) (done : Bool) : List LoopInput → List Event × LoopExit
  | [] => ([], LoopExit.inputsExhausted)
  | inp :: rest =>
    if done then ([], LoopExit.shutdownFlag)
    else
      match loop_body env done inp with
      | StepOutcome.exitCleanup _ evs => (evs, LoopExit.cleanupJump)
      | StepOutcome.continueLoop d evs =>
        let r := run_loop env d rest
        (evs ++ r.1, r.2)

/-- Oracles for the startup sequence of `main` (agent.c:315-386): library
initialization (`nc_init`), backend connection (`comm_connect`),
capability fetch (`get_server_capabilities`), session accept
(`nc_session_accept` / `nc_session_accept_username`), and session
registration with the backend (`comm_session_info`). -/
structure StartupEnv where
  ncInitOk : Bool
  commConnectOk : Bool
  capabilitiesOk : Bool
  sessionAcceptOk : Bool
  sessionInfoOk : Bool
deriving DecidableEq, Repr

/-- All five startup steps succeeded, so `main` reaches the
`while (!done)` loop. -/
def startupOk (se : StartupEnv) : Bool :=
  se.ncInitOk && se.commConnectOk && se.capabilitiesOk &&
    se.sessionAcceptOk && se.sessionInfoOk

/-- Shallow embedding of `main` (agent.c:281-447): each failing startup
step returns `EXIT_FAILURE` before the loop; once the loop is entered,
every exit path goes through `cleanup:` and returns `EXIT_SUCCESS`.
Returns the exit status and the events of the executed loop
iterations. -/
def agent_main (se : StartupEnv) (env : Env) (done : Bool)
    (inputs : List LoopInput) : Nat × List Event :=
  if !se.ncInitOk then (EXIT_FAILURE, [])
  else if !se.commConnectOk then (EXIT_FAILURE, [])
  else if !se.capabilitiesOk then (EXIT_FAILURE, [])
  else if !se.sessionAcceptOk then (EXIT_FAILURE, [])
  else if !se.sessionInfoOk then (EXIT_FAILURE, [])
  else
    let r := run_loop env done inputs
    (EXIT_SUCCESS, r.1)

/-! Concrete oracle environments used to evaluate the embedding at
specific inputs. -/

/-- A concrete oracle: every external call succeeds, backend replies are
distinguishable data replies. -/
def oracleEnv : Env :=
  { commCloseOk := true
    killSessionReply := fun s => Reply.data s.length
    operationReply := fun _ => Reply.data 7
    cpbltsEnabled := true
    notifAllowed := true
    subscriptionCheck := fun _ => Reply.ok
    mallocOk := true
    pthreadCreateOk := true }

/-- Like `oracleEnv` but the notification capability was not negotiated. -/
def envNoCap : Env :=
  { oracleEnv with cpbltsEnabled := false }

/-- Like `oracleEnv` but a notification subscription is already active on
the session (`nc_session_notif_allowed` returns 0). -/
def envNotAllowed : Env :=
  { oracleEnv with notifAllowed := false }

/-- Like `oracleEnv` but `malloc` of the thread config fails. -/
def envMallocFail : Env :=
  { oracleEnv with mallocOk := false }

/-- Like `oracleEnv` but `pthread_create` fails. -/
def envSpawnFail : Env :=
  { oracleEnv with pthreadCreateOk := false }

/-- The poll outcome `ret > 0` with only `POLLIN` set. -/
def dataReadyPoll : PollResult := PollResult.ready false false true

/-- A loop iteration whose receive yielded no structured request:
data was ready but `nc_session_recv_rpc` did not return `NC_MSG_RPC`. -/
def isNoRequestRecv (inp : LoopInput) : Bool :=
  decide (inp.poll = dataReadyPoll) &&
    (match inp.recv with
     | RecvResult.msgRpc _ => false
     | _ => true)

/-! Theorems about the claims. -/

/-- Every branch of `process_message` on a non-null RPC returns
`EXIT_SUCCESS`. -/
theorem process_message_some_status (env : Env) (done : Bool) (rpc : Rpc) :
    (process_message env done (some rpc)).status = EXIT_SUCCESS := by
  rcases rpc with ⟨op, pc⟩
  cases op with
  | closesession => rfl
  | killsession =>
    rcases pc with _ | ⟨name, children⟩
    · rfl
    · simp only [process_message]
      split
      · rfl
      · rcases children with _ | child
        · rfl
        · simp only
          split <;> rfl
  | createsubscription =>
    simp only [process_message]
    split
    · rfl
    · split
      · rfl
      · split
        · rfl
        · split
          · rfl
          · split <;> rfl
  | other => rfl

/-- C9: `process_message` on a null RPC returns `EXIT_FAILURE`, sends
nothing and leaves the `done` flag unchanged; a null RPC is the only
input on which it returns `EXIT_FAILURE`. -/
theorem null_rpc_fails_without_reply (env : Env) (done : Bool)
    (rpc : Option Rpc) :
    process_message env done none
        = { status := EXIT_FAILURE, done := done, events := [] }
  ∧ ((process_message env done rpc).status = EXIT_FAILURE ↔ rpc = none) := by
  refine ⟨rfl, ?_⟩
  cases rpc with
  | none => simp [process_message]
  | some r =>
    simp only [process_message_some_status env done r]
    simp [EXIT_SUCCESS, EXIT_FAILURE]

/-- C5: on a terminate-session (close-session) request, `process_message`
leaves the `done` flag set whatever the backend `comm_close` outcome was,
and sends exactly the reply `ok` when the backend confirmed the close and
an operation-failed error otherwise. -/
theorem close_session_sets_done (env : Env) (done : Bool)
    (pc : Option XmlOp) :
    (process_message env done (some ⟨NcOp.closesession, pc⟩)).done = true
  ∧ sentReplies (process_message env done (some ⟨NcOp.closesession, pc⟩)).events
      = [if env.commCloseOk then Reply.ok
         else Reply.error { tag := NcErrTag.op_failed }] := by
  cases h : env.commCloseOk <;>
    simp [process_message, sentReplies, sendReplyTail, h]

/-- C6: the shutdown controller is a two-state machine: a first
recognized termination signal while the flag is unset sets the flag and
returns (does not terminate the process); a recognized signal while the
flag is already set terminates the process with failure status; any
unrecognized signal terminates the process with failure status. -/
theorem signal_handler_state_machine (sig : Nat) :
    (sig ∈ termination_signals →
        signal_handler false sig = HandlerOutcome.returns true)
  ∧ (sig ∈ termination_signals →
        signal_handler true sig = HandlerOutcome.exitFailure)
  ∧ (sig ∉ termination_signals →
        ∀ d, signal_handler d sig = HandlerOutcome.exitFailure) := by
  refine ⟨fun h => ?_, fun h => ?_, fun h d => ?_⟩ <;>
    simp [signal_handler, h]

/-- Witness for C6: `SIGINT` is recognized (first delivery sets the flag,
second terminates), signal 7 is not recognized (immediate
termination). -/
theorem signal_handler_state_machine_witness :
    signal_handler false SIGINT = HandlerOutcome.returns true
  ∧ signal_handler true SIGINT = HandlerOutcome.exitFailure
  ∧ signal_handler false 7 = HandlerOutcome.exitFailure :=
  ⟨(signal_handler_state_machine SIGINT).1 (by decide),
   (signal_handler_state_machine SIGINT).2.1 (by decide),
   (signal_handler_state_machine 7).2.2 (by decide) false⟩

/-- C10: a poll error with `errno == EINTR` matches no branch of the loop
body, so the iteration neither exits nor dispatches: the body continues
with no events and an unchanged flag, such an iteration is a no-op of the
whole loop run, and when the shutdown flag is set (by a termination
signal during the wait) the next top-of-loop check exits via the flag,
not via the poll-error cleanup jump. -/
theorem eintr_poll_is_noop (env : Env) (done : Bool) (r : RecvResult)
    (s : SessionStatus) (inp : LoopInput) (rest : List LoopInput) :
    loop_body env done ⟨PollResult.error true, r, s⟩
        = StepOutcome.continueLoop done []
  ∧ run_loop env false (⟨PollResult.error true, r, s⟩ :: rest)
        = run_loop env false rest
  ∧ run_loop env true (inp :: rest) = ([], LoopExit.shutdownFlag) := by
  refine ⟨rfl, ?_, by simp [run_loop]⟩
  simp [run_loop, loop_body]

/-- C8: once the loop is entered the process exit status is
`EXIT_SUCCESS` whatever the loop inputs (hence whatever exit path the
loop takes); the status is `EXIT_FAILURE` exactly when one of the five
startup steps fails; and the signal handler terminates the process with
failure status exactly on an unrecognized signal or a repeated
recognized one. -/
theorem exit_status_policy (se : StartupEnv) (env : Env)
    (inputs : List LoopInput) (sig : Nat) (d : Bool) :
    ((agent_main se env false inputs).1 = EXIT_SUCCESS ↔ startupOk se = true)
  ∧ ((agent_main se env false inputs).1 = EXIT_FAILURE ↔ startupOk se = false)
  ∧ (signal_handler d sig = HandlerOutcome.exitFailure
        ↔ (sig ∉ termination_signals ∨ d = true)) := by
  refine ⟨?_, ?_, ?_⟩
  · rcases se with ⟨a, b, c, d', e⟩
    cases a <;> cases b <;> cases c <;> cases d' <;> cases e <;>
      simp [agent_main, startupOk, EXIT_SUCCESS, EXIT_FAILURE]
  · rcases se with ⟨a, b, c, d', e⟩
    cases a <;> cases b <;> cases c <;> cases d' <;> cases e <;>
      simp [agent_main, startupOk, EXIT_SUCCESS, EXIT_FAILURE]
  · by_cases h : sig ∈ termination_signals <;> cases d <;>
      simp [signal_handler, h]

/-- C7: a loop iteration whose receive yields no structured request on a
still-working session continues the loop with no events (no reply); when
such an iteration does exit the loop, the session status had degraded
(and the frame was `NC_MSG_UNKNOWN`); hence a trace consisting only of
no-request receives on a working session produces no events and never
exits the loop. -/
theorem malformed_receives_are_silent (env : Env) (done : Bool)
    (inp : LoopInput) (inputs : List LoopInput) :
    (isNoRequestRecv inp = true → inp.status = SessionStatus.working →
        loop_body env done inp = StepOutcome.continueLoop done [])
  ∧ (isNoRequestRecv inp = true →
        loop_body env done inp = StepOutcome.exitCleanup done [] →
        inp.status = SessionStatus.degraded
          ∧ inp.recv = RecvResult.msgUnknown)
  ∧ ((∀ i ∈ inputs, isNoRequestRecv i = true
          ∧ i.status = SessionStatus.working) →
        run_loop env false inputs = ([], LoopExit.inputsExhausted)) := by
  have hbody : ∀ i, isNoRequestRecv i = true →
      i.status = SessionStatus.working →
      loop_body env done i = StepOutcome.continueLoop done [] := by
    intro i h hw
    rcases i with ⟨p, r, s⟩
    simp only [isNoRequestRecv, Bool.and_eq_true, decide_eq_true_eq] at h
    obtain ⟨hp, hr⟩ := h
    subst hp
    simp only at hw
    subst hw
    cases r with
    | msgRpc rpc => simp at hr
    | msgNone => rfl
    | msgUnknown => simp [loop_body, dataReadyPoll]
    | msgOther => rfl
  refine ⟨hbody inp, ?_, ?_⟩
  · intro h hex
    rcases inp with ⟨p, r, s⟩
    simp only [isNoRequestRecv, Bool.and_eq_true, decide_eq_true_eq] at h
    obtain ⟨hp, hr⟩ := h
    subst hp
    cases r with
    | msgRpc rpc => simp at hr
    | msgNone => simp [loop_body, dataReadyPoll] at hex
    | msgUnknown =>
      cases s with
      | working => simp [loop_body, dataReadyPoll] at hex
      | degraded => exact ⟨rfl, rfl⟩
    | msgOther => simp [loop_body, dataReadyPoll] at hex
  · intro hall
    clear hbody
    induction inputs with
    | nil => rfl
    | cons i rest ih =>
      have hi := hall i (by simp)
      have hb : loop_body env false i = StepOutcome.continueLoop false [] := by
        rcases i with ⟨p, r, s⟩
        obtain ⟨h, hw⟩ := hi
        simp only [isNoRequestRecv, Bool.and_eq_true, decide_eq_true_eq] at h
        obtain ⟨hp, hr⟩ := h
        subst hp
        simp only at hw
        subst hw
        cases r with
        | msgRpc rpc => simp at hr
        | msgNone => rfl
        | msgUnknown => simp [loop_body, dataReadyPoll]
        | msgOther => rfl
      simp only [run_loop, if_neg (by simp : ¬(false = true)), hb]
      rw [ih (fun j hj => hall j (by simp [hj]))]
      simp

/-- Witness for C7: an `NC_MSG_UNKNOWN` receive on a working session
continues the loop silently; the exiting no-request receive has a
degraded session; a trace of three unknown-frame receives on a working
session runs to exhaustion with no events. -/
theorem malformed_receives_are_silent_witness :
    loop_body oracleEnv false
        ⟨dataReadyPoll, RecvResult.msgUnknown, SessionStatus.working⟩
      = StepOutcome.continueLoop false []
  ∧ (SessionStatus.degraded = SessionStatus.degraded
      ∧ RecvResult.msgUnknown = RecvResult.msgUnknown)
  ∧ run_loop oracleEnv false
        (List.replicate 3
          ⟨dataReadyPoll, RecvResult.msgUnknown, SessionStatus.working⟩)
      = ([], LoopExit.inputsExhausted) :=
  ⟨(malformed_receives_are_silent oracleEnv false
      ⟨dataReadyPoll, RecvResult.msgUnknown, SessionStatus.working⟩ []).1
      (by decide) rfl,
   (malformed_receives_are_silent oracleEnv false
      ⟨dataReadyPoll, RecvResult.msgUnknown, SessionStatus.degraded⟩ []).2.1
      (by decide) (by decide),
   (malformed_receives_are_silent oracleEnv false
      ⟨dataReadyPoll, RecvResult.msgUnknown, SessionStatus.working⟩
      (List.replicate 3
        ⟨dataReadyPoll, RecvResult.msgUnknown, SessionStatus.working⟩)).2.2
      (by decide)⟩

/-- C1: on every non-null RPC, whatever the operation kind and whatever
the oracle outcomes, `process_message` ends with exactly one
`nc_session_send_reply` immediately followed by the `nc_reply_free` of
that same reply, and no reply is sent earlier on the path. -/
theorem dispatch_sends_exactly_one_reply (env : Env) (done : Bool)
    (rpc : Rpc) :
    ∃ r pre, (process_message env done (some rpc)).events
        = pre ++ sendReplyTail r
      ∧ ∀ r2, Event.sendReply r2 ∉ pre := by
  rcases rpc with ⟨op, pc⟩
  cases op with
  | closesession => exact ⟨_, [], rfl, by simp⟩
  | killsession =>
    rcases pc with _ | ⟨name, children⟩
    · exact ⟨_, [], rfl, by simp⟩
    · simp only [process_message]
      split
      · exact ⟨_, [], rfl, by simp⟩
      · rcases children with _ | child
        · exact ⟨_, [], rfl, by simp⟩
        · simp only
          split
          · exact ⟨_, [], rfl, by simp⟩
          · exact ⟨_, [], rfl, by simp⟩
  | createsubscription =>
    simp only [process_message]
    split
    · exact ⟨_, [], rfl, by simp⟩
    · split
      · exact ⟨_, [], rfl, by simp⟩
      · split
        · exact ⟨_, [], rfl, by simp⟩
        · split
          · exact ⟨_, [], rfl, by simp⟩
          · split
            · exact ⟨_, [Event.dupRpc, Event.freeReply _], rfl, by simp⟩
            · exact ⟨_, [Event.dupRpc, Event.spawnThread], rfl, by simp⟩
  | other => exact ⟨_, [], rfl, by simp⟩

/-- C2 counterexample: on a session where a subscription is already
active, the message of the reply is not the one the claim states (the code
sends "Another notification subscription is currently active on this
session."). -/
theorem duplicate_subscription_message_cex :
    sentReplies (process_message envNotAllowed false
        (some { op := NcOp.createsubscription, opContent := none })).events
      ≠ [Reply.error { tag := NcErrTag.op_failed, typ := some "protocol",
                       msg := some "a subscription is already active on this session" }] := by
  decide

/-- C2 (amended): a create-event-subscription request is answered with
operation-not-supported whenever the notification capability is missing
(whatever the eligibility oracle says, so the capability check comes
first), and with operation-failed annotated type "protocol" and message
"Another notification subscription is currently active on this session."
when the capability is present but the session is not eligible. -/
theorem subscription_capability_then_eligibility (env : Env) (done : Bool)
    (pc : Option XmlOp) :
    (env.cpbltsEnabled = false →
        sentReplies (process_message env done
            (some ⟨NcOp.createsubscription, pc⟩)).events
          = [Reply.error { tag := NcErrTag.op_not_supported }])
  ∧ (env.cpbltsEnabled = true → env.notifAllowed = false →
        sentReplies (process_message env done
            (some ⟨NcOp.createsubscription, pc⟩)).events
          = [Reply.error { tag := NcErrTag.op_failed, typ := some "protocol",
                           msg := some "Another notification subscription is currently active on this session." }]) := by
  constructor
  · intro h
    simp [process_message, h, sentReplies, sendReplyTail]
  · intro h1 h2
    simp [process_message, h1, h2, sentReplies, sendReplyTail]

/-- Witness for C2 (amended): evaluated on a session without and with the
notification capability. -/
theorem subscription_capability_then_eligibility_witness :
    sentReplies (process_message envNoCap false
        (some ⟨NcOp.createsubscription, none⟩)).events
      = [Reply.error { tag := NcErrTag.op_not_supported }]
  ∧ sentReplies (process_message envNotAllowed false
        (some ⟨NcOp.createsubscription, none⟩)).events
      = [Reply.error { tag := NcErrTag.op_failed, typ := some "protocol",
                       msg := some "Another notification subscription is currently active on this session." }] :=
  ⟨(subscription_capability_then_eligibility envNoCap false none).1 rfl,
   (subscription_capability_then_eligibility envNotAllowed false none).2
      rfl rfl⟩

/-- C4: kill-session dispatch: a payload with no operation element or a
wrongly named one yields operation-failed; a well-named operation element
with no child, or with a child not named session-id, yields
missing-element naming "session-id"; otherwise the content of the child is the
identifier and the reply is whatever the backend kill-by-id returns. -/
theorem kill_session_validation (env : Env) (done : Bool) (op : XmlOp)
    (child : XmlChild) :
    sentReplies (process_message env done
        (some ⟨NcOp.killsession, none⟩)).events
      = [Reply.error { tag := NcErrTag.op_failed }]
  ∧ (op.name ≠ some "kill-session" →
      sentReplies (process_message env done
          (some ⟨NcOp.killsession, some op⟩)).events
        = [Reply.error { tag := NcErrTag.op_failed }])
  ∧ sentReplies (process_message env done
        (some ⟨NcOp.killsession, some ⟨some "kill-session", none⟩⟩)).events
      = [Reply.error { tag := NcErrTag.missing_elem,
                       badelem := some "session-id" }]
  ∧ (child.name ≠ some "session-id" →
      sentReplies (process_message env done
          (some ⟨NcOp.killsession,
            some ⟨some "kill-session", some child⟩⟩)).events
        = [Reply.error { tag := NcErrTag.missing_elem,
                         badelem := some "session-id" }])
  ∧ (child.name = some "session-id" →
      sentReplies (process_message env done
          (some ⟨NcOp.killsession,
            some ⟨some "kill-session", some child⟩⟩)).events
        = [env.killSessionReply child.content]) := by
  refine ⟨rfl, fun h => ?_, by simp [process_message, sentReplies, sendReplyTail],
    fun h => ?_, fun h => ?_⟩
  · simp [process_message, h, sentReplies, sendReplyTail]
  · simp [process_message, h, sentReplies, sendReplyTail]
  · simp [process_message, h, sentReplies, sendReplyTail]

/-- Witness for C4: the five kill-session branches evaluated at concrete
payloads (a wrongly named operation element, a child that is not
session-id, and a proper session-id child with content "42"). -/
theorem kill_session_validation_witness :
    sentReplies (process_message oracleEnv false
        (some ⟨NcOp.killsession, none⟩)).events
      = [Reply.error { tag := NcErrTag.op_failed }]
  ∧ sentReplies (process_message oracleEnv false
        (some ⟨NcOp.killsession, some ⟨some "bad-op", none⟩⟩)).events
      = [Reply.error { tag := NcErrTag.op_failed }]
  ∧ sentReplies (process_message oracleEnv false
        (some ⟨NcOp.killsession, some ⟨some "kill-session", none⟩⟩)).events
      = [Reply.error { tag := NcErrTag.missing_elem,
                       badelem := some "session-id" }]
  ∧ sentReplies (process_message oracleEnv false
        (some ⟨NcOp.killsession,
          some ⟨some "kill-session", some ⟨some "bad-child", "9"⟩⟩⟩)).events
      = [Reply.error { tag := NcErrTag.missing_elem,
                       badelem := some "session-id" }]
  ∧ sentReplies (process_message oracleEnv false
        (some ⟨NcOp.killsession,
          some ⟨some "kill-session", some ⟨some "session-id", "42"⟩⟩⟩)).events
      = [oracleEnv.killSessionReply "42"] :=
  ⟨(kill_session_validation oracleEnv false ⟨some "bad-op", none⟩
      ⟨some "bad-child", "9"⟩).1,
   (kill_session_validation oracleEnv false ⟨some "bad-op", none⟩
      ⟨some "bad-child", "9"⟩).2.1 (by decide),
   (kill_session_validation oracleEnv false ⟨some "bad-op", none⟩
      ⟨some "bad-child", "9"⟩).2.2.1,
   (kill_session_validation oracleEnv false ⟨some "bad-op", none⟩
      ⟨some "bad-child", "9"⟩).2.2.2.1 (by decide),
   (kill_session_validation oracleEnv false ⟨some "bad-op", none⟩
      ⟨some "session-id", "42"⟩).2.2.2.2 rfl⟩

/-- C3: on a create-event-subscription request that passes every check,
when `pthread_create` fails the code frees the ok reply and sends
operation-failed — but the trace contains the `nc_rpc_dup` with neither a
free of the duplicate nor a thread hand-off, so the duplicated request is
leaked, contradicting the claim; the malloc-failure half of the claim
does hold (an operation-failed reply with the allocation message). -/
theorem spawn_failure_leaks_duplicate :
    (process_message envSpawnFail false
        (some ⟨NcOp.createsubscription, none⟩)).events
      = [Event.dupRpc, Event.freeReply Reply.ok,
         Event.sendReply (Reply.error { tag := NcErrTag.op_failed,
                                        msg := some "Creating thread for sending Notifications failed." }),
         Event.freeReply (Reply.error { tag := NcErrTag.op_failed,
                                        msg := some "Creating thread for sending Notifications failed." })]
  ∧ dupReleased (process_message envSpawnFail false
        (some ⟨NcOp.createsubscription, none⟩)).events = false
  ∧ sentReplies (process_message envMallocFail false
        (some ⟨NcOp.createsubscription, none⟩)).events
      = [Reply.error { tag := NcErrTag.op_failed,
                       msg := some "Memory allocation failed." }] := by
  refine ⟨?_, ?_, ?_⟩ <;> decide

end Agent
